import Mathlib

/-!
Verification development for the `llm_memory_calculator` pricing scripts.

The repository holds three independent Python pipelines
(`get_aws_gpu_pricing.py`, `get_azure_gpu_pricing.py`,
`get_gcp_gpu_pricing.py`).  Each is shallowly embedded below: JSON
dictionaries become structures with `Option` fields (`none` models a
missing key, and `Option (Option _)` distinguishes a missing key from a
key holding JSON `null`), Python floats become `ℚ`, Python exceptions
become `Except String`, and the vendor HTTP endpoints become explicit
oracle parameters.  String manipulation is re-implemented structurally
on `List Char` so that every definition evaluates by `decide`/`rfl`.
-/

/-! ## String helpers (structural models of the Python string operations) -/

/-- `chStartsWith needle hay`: does `hay` start with `needle`?  Models
Python `str.startswith`. -/
def chStartsWith : List Char → List Char → Bool
  | [], _ => true
  | _ :: _, [] => false
  | a :: as, b :: bs => a == b && chStartsWith as bs

/-- `chContainsSub needle hay`: does `needle` occur as a contiguous
substring of `hay`?  Models the Python `needle in hay` test. -/
def chContainsSub (needle : List Char) : List Char → Bool
  | [] => chStartsWith needle []
  | c :: cs => chStartsWith needle (c :: cs) || chContainsSub needle cs

/-- Python `pre in s` on strings (substring test). -/
def strContains (hay needle : String) : Bool :=
  chContainsSub needle.data hay.data

/-- Python `s.startswith(pre)`. -/
def strStartsWith (pre s : String) : Bool :=
  chStartsWith pre.data s.data

/-- Python `s.lower()` (ASCII, which is all the scripts use). -/
def strLower (s : String) : String :=
  String.mk (s.data.map Char.toLower)

/-- Python `s.upper()` (ASCII). -/
def strUpper (s : String) : String :=
  String.mk (s.data.map Char.toUpper)

/-- Split on a single separator character; keeps empty pieces, like
Python `s.split('_')`. -/
def splitOnCharAux (sep : Char) (acc : List Char) : List Char → List (List Char)
  | [] => [acc.reverse]
  | c :: cs =>
    if c == sep then acc.reverse :: splitOnCharAux sep [] cs
    else splitOnCharAux sep (c :: acc) cs

/-- Python `s.split(sep)` for a one-character separator. -/
def strSplitOnChar (sep : Char) (s : String) : List String :=
  (splitOnCharAux sep [] s.data).map String.mk

/-- Fuel-driven split on a multi-character separator (the fuel is the
input length plus one, which always suffices). -/
def splitStrAux (needle : List Char) : Nat → List Char → List Char → List (List Char)
  | 0, acc, rest => [acc.reverse ++ rest]
  | _ + 1, acc, [] => [acc.reverse]
  | fuel + 1, acc, c :: cs =>
    if chStartsWith needle (c :: cs) then
      acc.reverse :: splitStrAux needle fuel [] (List.drop needle.length (c :: cs))
    else
      splitStrAux needle fuel (c :: acc) cs

/-- Python `s.split(sep)` for a non-empty string separator. -/
def strSplitOnStr (needle s : String) : List String :=
  (splitStrAux needle.data (s.data.length + 1) [] s.data).map String.mk

/-- Python whitespace `s.split()`: splits on runs of whitespace and
drops empty pieces. -/
def pySplitAux (acc : List Char) : List Char → List (List Char)
  | [] => if acc.isEmpty then [] else [acc.reverse]
  | c :: cs =>
    if c.isWhitespace then
      if acc.isEmpty then pySplitAux [] cs else acc.reverse :: pySplitAux [] cs
    else pySplitAux (c :: acc) cs

/-- Python `s.split()` with no argument. -/
def pySplit (s : String) : List String :=
  (pySplitAux [] s.data).map String.mk

/-- The digit characters of a string, in order (Python
`[c for c in s if c.isdigit()]`). -/
def digitChars (s : String) : List Char :=
  s.data.filter Char.isDigit

/-- Decimal value of a digit list. -/
def natOfDigits (cs : List Char) : Nat :=
  cs.foldl (fun acc c => acc * 10 + (c.toNat - 48)) 0

/-- Strip leading and trailing whitespace. -/
def trimChars (cs : List Char) : List Char :=
  ((cs.dropWhile Char.isWhitespace).reverse.dropWhile Char.isWhitespace).reverse

/-- Python `int(s)`: optional sign followed by at least one digit
(after stripping whitespace); `none` models `ValueError`. -/
def pyInt? (s : String) : Option Int :=
  match trimChars s.data with
  | [] => none
  | '-' :: rest =>
    if !rest.isEmpty && rest.all Char.isDigit then some (-(natOfDigits rest : Int)) else none
  | '+' :: rest =>
    if !rest.isEmpty && rest.all Char.isDigit then some ((natOfDigits rest : Int)) else none
  | cs =>
    if cs.all Char.isDigit then some ((natOfDigits cs : Int)) else none

/-- Unsigned decimal literal with an optional fractional part. -/
def parseUnsignedFloat? (cs : List Char) : Option ℚ :=
  match splitOnCharAux '.' [] cs with
  | [intPart] =>
    if !intPart.isEmpty && intPart.all Char.isDigit then some ((natOfDigits intPart : ℚ))
    else none
  | [intPart, fracPart] =>
    if (!intPart.isEmpty || !fracPart.isEmpty)
        && intPart.all Char.isDigit && fracPart.all Char.isDigit then
      some ((natOfDigits intPart : ℚ) + (natOfDigits fracPart : ℚ) / ((10 : ℚ) ^ fracPart.length))
    else none
  | _ => none

/-- Python `float(s)` restricted to plain decimal literals, the only
shape the scripts ever feed it; `none` models `ValueError`. -/
def pyFloat? (s : String) : Option ℚ :=
  match trimChars s.data with
  | '-' :: rest => (parseUnsignedFloat? rest).map (fun q => -q)
  | '+' :: rest => parseUnsignedFloat? rest
  | cs => parseUnsignedFloat? cs

/-- First-match association-list lookup; the lookup tables in the
scripts are dict literals with distinct keys, so this models
`dict.get`. -/
def alookup {α : Type} (k : String) : List (String × α) → Option α
  | [] => none
  | (k', v) :: rest => if k == k' then some v else alookup k rest

/-- Python list indexing `parts[i]` with negative-index wraparound;
`none` models `IndexError`. -/
def pyIndex (parts : List String) (i : Int) : Option String :=
  if 0 ≤ i then parts.get? i.toNat
  else if (-i).toNat ≤ parts.length then parts.get? (parts.length - (-i).toNat)
  else none

/-! ## Result persistence (`save_results`, shared shape of all three scripts)

Each script serializes `{"generated_at": <now>, "instances": [...]}` twice:
once to a timestamped filename and once to the fixed
`<vendor>_gpu_instances.json`.  Each `json.dump` call evaluates
`datetime.now().isoformat()` anew, so the two timestamps are separate
inputs here (`tdump1`, `tdump2`); `tfile` is the `strftime` timestamp used
to build the default filename.  `json.dump` is deterministic, so two
written files are byte-identical exactly when the documents are equal. -/

/-- The JSON document each script writes. -/
structure OutputDoc (α : Type) where
  generated_at : String
  instances : List α
deriving DecidableEq

/-- `save_results` of each script (they differ only in the vendor
prefix): returns the `(filename, document)` pair for the timestamped
file and for the fixed "latest" file, in the order written. -/
def save_results (α : Type) (vendor : String) (instances : List α)
    (filename : Option String) (tfile tdump1 tdump2 : String) :
    (String × OutputDoc α) × (String × OutputDoc α) :=
  let fname :=
    match filename with
    | none => vendor ++ "_gpu_instances_" ++ tfile ++ ".json"
    | some f => f
  ((fname, ⟨tdump1, instances⟩),
   (vendor ++ "_gpu_instances.json", ⟨tdump2, instances⟩))

/-! ## AWS pipeline (`get_aws_gpu_pricing.py`) -/

namespace Aws

/-- `GPU_INSTANCE_FAMILIES`. -/
def GPU_INSTANCE_FAMILIES : List String :=
  ["p5en", "p5e", "p5", "p4d", "p4de", "p3", "p3dn",
   "g3", "g4dn", "g5", "g6", "g6e", "g5g"]

/-- `GPU_MODEL_MAP` (dict literal; iteration order is insertion order). -/
def GPU_MODEL_MAP : List (String × String) :=
  [("p5e", "NVIDIA H200"), ("p5", "NVIDIA H100"), ("p4d", "NVIDIA A100"),
   ("p4de", "NVIDIA A100"), ("p3", "NVIDIA V100"), ("p3dn", "NVIDIA V100"),
   ("g3", "NVIDIA M60"), ("g4dn", "NVIDIA T4"), ("g5", "NVIDIA A10G"),
   ("g6", "NVIDIA L4"), ("g6e", "NVIDIA L40S"), ("g5g", "AWS Graviton2 (ARM)")]

/-- `GPU_MEMORY_MAP` (GB). -/
def GPU_MEMORY_MAP : List (String × ℚ) :=
  [("NVIDIA H200", 141), ("NVIDIA H100", 80), ("NVIDIA A100", 80),
   ("NVIDIA V100", 16), ("NVIDIA M60", 8), ("NVIDIA T4", 16),
   ("NVIDIA A10G", 24), ("NVIDIA L4", 24), ("NVIDIA L40S", 48),
   ("AWS Graviton2 (ARM)", 0)]

/-- One element of a `GpuInfo.Gpus` list. -/
structure ApiGpu where
  count : Option Nat
  name : Option String
  memSizeInMiB : Option ℚ
deriving DecidableEq

/-- The `GpuInfo` dictionary of a `describe_instance_types` record. -/
structure GpuInfo where
  gpus : Option (List ApiGpu)
deriving DecidableEq

/-- A raw `describe_instance_types` record (the keys the script reads). -/
structure ApiInstanceType where
  instanceType : String
  gpuInfo : Option GpuInfo
  defaultVCpus : Option Nat
  memSizeInMiB : Option ℚ
deriving DecidableEq

/-- The record shape `get_instance_types` builds; the three price
fields are added by the later stages (`none` = key absent,
`some none` = key present holding JSON `null`). -/
structure Record where
  instance_type : String
  family : String
  vcpus : Nat
  memory_gb : ℚ
  gpu_count : Nat
  gpu_model : Option String
  gpu_memory_gb : ℚ
  total_gpu_memory_gb : ℚ
  price_per_hour_usd : Option (Option ℚ) := none
  price_per_gpu_hour : Option (Option ℚ) := none
  price_per_gpu_gb_hour : Option (Option ℚ) := none
deriving DecidableEq

/-- Python falsiness of an optional string (`not gpu_model`). -/
def pyFalsyStrOpt : Option String → Bool
  | none => true
  | some s => s == ""

/-- Lines 88-100 of the script: read GPU data out of `GpuInfo`.  The
source guards the read with `if gpu_count_len == 0:` and then indexes
`gpu_info["Gpus"][0]`; because that branch is taken exactly when the
list is empty, the indexing always raises `IndexError`, and when the
list is non-empty nothing is read at all. -/
def extractApiGpu (it : ApiInstanceType) : Except String (Nat × Option String × ℚ) :=
  match it.gpuInfo with
  | none => .ok (0, none, 0)
  | some gi =>
    match gi.gpus with
    | none => .ok (0, none, 0)
    | some gpus =>
      if gpus.length == 0 then .error "IndexError: list index out of range"
      else .ok (0, none, 0)

/-- Lines 102-108: static fallback mapping when the API gave no model
or zero memory (first matching family prefix wins). -/
def familyFallback (it : ApiInstanceType) (gpu_model : Option String) (gpu_memory : ℚ) :
    Option String × ℚ :=
  if pyFalsyStrOpt gpu_model || gpu_memory == 0 then
    match GPU_MODEL_MAP.find? (fun fm => strStartsWith fm.1 it.instanceType) with
    | some fm => (some fm.2, (alookup fm.2 GPU_MEMORY_MAP).getD 0)
    | none => (gpu_model, gpu_memory)
  else (gpu_model, gpu_memory)

/-- Lines 110-121: size-suffix heuristic for the GPU count. -/
def countHeuristic (it : ApiInstanceType) (gpu_count : Nat) : Nat :=
  if gpu_count == 0 then
    let instance_size := (strSplitOnChar '.' it.instanceType).getLastD ""
    if strContains instance_size "24xlarge" then 8
    else if strContains instance_size "16xlarge" || strContains instance_size "12xlarge" then 4
    else if strContains instance_size "8xlarge" then 2
    else if strContains instance_size "xlarge" then 1
    else gpu_count
  else gpu_count

/-- Classification of one raw record (the body of the inner loop of
`get_instance_types`); `none` means the record does not match the GPU
family filter. -/
def processInstanceType (it : ApiInstanceType) : Except String (Option Record) :=
  if GPU_INSTANCE_FAMILIES.any (fun fam => strStartsWith fam it.instanceType) then
    match extractApiGpu it with
    | .error e => .error e
    | .ok (c0, m0, mem0) =>
      let fm := familyFallback it m0 mem0
      let gpu_count := countHeuristic it c0
      .ok (some
        { instance_type := it.instanceType
          family := (GPU_INSTANCE_FAMILIES.find?
            (fun f => strStartsWith f it.instanceType)).getD "unknown"
          vcpus := it.defaultVCpus.getD 0
          memory_gb := (it.memSizeInMiB.getD 0) / 1024
          gpu_count := gpu_count
          gpu_model := fm.1
          gpu_memory_gb := fm.2
          total_gpu_memory_gb := (gpu_count : ℚ) * fm.2 })
  else .ok none

/-- The accumulation loop of `get_instance_types`: an exception while
processing any record propagates and aborts the whole run. -/
def collectInstances : List ApiInstanceType → Except String (List Record)
  | [] => .ok []
  | it :: rest =>
    match processInstanceType it with
    | .error e => .error e
    | .ok r =>
      match collectInstances rest with
      | .error e => .error e
      | .ok rs => .ok (match r with | some r0 => r0 :: rs | none => rs)

/-- `get_instance_types`: the boto3 paginator yields each page in turn
and the script iterates `for page in paginator.paginate(): for
instance_type in page["InstanceTypes"]:`. -/
def get_instance_types (pages : List (List ApiInstanceType)) : Except String (List Record) :=
  collectInstances pages.flatten

/-- `pricePerUnit`: currency code to amount. -/
structure PriceDimension where
  pricePerUnit : List (String × ℚ)
deriving DecidableEq

/-- One `OnDemand` term (`priceDimensions` dict as an ordered list:
`next(iter(...))` takes the first entry). -/
structure OnDemandTerm where
  priceDimensions : List (String × PriceDimension)
deriving DecidableEq

/-- One parsed `PriceList` entry (`terms.OnDemand`). -/
structure PriceData where
  onDemand : List (String × OnDemandTerm)
deriving DecidableEq

/-- A `get_products` response. -/
structure PriceResponse where
  priceList : List PriceData
deriving DecidableEq

/-- Price resolution for one instance type (lines 158-208).  The oracle
returning `none` models the pricing call raising; the whole body sits
in `try/except`, so every failure (including the `StopIteration` from
`next(iter({}))` on an empty `priceDimensions`) yields price `None`. -/
def resolvePrice (oracle : String → Option PriceResponse) (ityp : String) : Option ℚ :=
  match oracle ityp with
  | none => none
  | some resp =>
    match resp.priceList with
    | [] => none
    | pd :: _ =>
      match pd.onDemand with
      | [] => none
      | (_, term) :: _ =>
        match term.priceDimensions with
        | [] => none
        | (_, dim) :: _ =>
          match alookup "USD" dim.pricePerUnit with
          | some v => some v
          | none =>
            match alookup "CNY" dim.pricePerUnit with
            | some v => some (v * (14 / 100 : ℚ))
            | none => none

/-- `get_instance_pricing`: sets `price_per_hour_usd` on every record
(the key is always created; its value may be `null`). -/
def get_instance_pricing (oracle : String → Option PriceResponse) (l : List Record) :
    List Record :=
  l.map (fun inst => { inst with price_per_hour_usd := some (resolvePrice oracle inst.instance_type) })

/-- The loop body of `calculate_derived_metrics`.  When the price is
missing or `null` the source executes `del instance; continue`, which
unbinds the loop variable but leaves the list element untouched.
Otherwise the two ratio keys are always created; a zero divisor makes
the value `None` (key present holding `null`). -/
def deriveOne (inst : Record) : Record :=
  match inst.price_per_hour_usd with
  | some (some p) =>
    let r1 :=
      if inst.gpu_count > 0 then
        { inst with price_per_gpu_hour := some (some (p / (inst.gpu_count : ℚ))) }
      else
        { inst with price_per_gpu_hour := some none }
    if (0 : ℚ) < r1.total_gpu_memory_gb then
      { r1 with price_per_gpu_gb_hour := some (some (p / r1.total_gpu_memory_gb)) }
    else
      { r1 with price_per_gpu_gb_hour := some none }
  | _ => inst

/-- `calculate_derived_metrics`. -/
def calculate_derived_metrics (l : List Record) : List Record :=
  l.map deriveOne

/-- The whole AWS pipeline as run by `main` (fetch, price, derive). -/
def pipeline (oracle : String → Option PriceResponse)
    (pages : List (List ApiInstanceType)) : Except String (List Record) :=
  match get_instance_types pages with
  | .error e => .error e
  | .ok l => .ok (calculate_derived_metrics (get_instance_pricing oracle l))

end Aws

/-! ## Azure pipeline (`get_azure_gpu_pricing.py`) -/

namespace Azure

/-- The per-series entry of `SERIES_GPU_MAP`. -/
structure SeriesInfo where
  model : String
  count_suffix : List (String × Nat)
deriving DecidableEq

/-- `GPU_MODELS`: model name to memory (GB). -/
def GPU_MODELS : List (String × Nat) :=
  [("NVIDIA H100", 80), ("NVIDIA A100", 80), ("NVIDIA T4", 16),
   ("NVIDIA V100", 32), ("NVIDIA P100", 16), ("NVIDIA K80", 12),
   ("NVIDIA A10", 24), ("NVIDIA M60", 8), ("AMD MI300X", 192), ("AMD V620", 8)]

/-- `SERIES_GPU_MAP` (dict literal; iteration order is insertion order). -/
def SERIES_GPU_MAP : List (String × SeriesInfo) :=
  [("NCads_H100_v5", ⟨"NVIDIA H100", [("24", 8), ("8", 4), ("4", 2), ("2", 1)]⟩),
   ("NCCads_H100_v5", ⟨"NVIDIA H100", [("24", 8), ("8", 4), ("4", 2), ("2", 1)]⟩),
   ("ND-H100-v5", ⟨"NVIDIA H100", [("80", 8), ("40", 4)]⟩),
   ("NC_A100_v4", ⟨"NVIDIA A100", [("80", 8), ("8", 1), ("1", 1)]⟩),
   ("NDm_A100_v4", ⟨"NVIDIA A100", [("8", 8), ("4", 4)]⟩),
   ("ND_A100_v4", ⟨"NVIDIA A100", [("8", 8), ("4", 4)]⟩),
   ("NCasT4_v3", ⟨"NVIDIA T4", [("16", 4), ("8", 2), ("4", 1), ("2", 1), ("1", 1)]⟩),
   ("NCv3", ⟨"NVIDIA V100", [("32", 4), ("16", 2), ("8", 1)]⟩),
   ("NCv2", ⟨"NVIDIA P100", [("24", 4), ("12", 2), ("6", 1)]⟩),
   ("NC", ⟨"NVIDIA K80", [("12", 4), ("6", 2), ("1", 1)]⟩),
   ("NVadsA10_v5", ⟨"NVIDIA A10", [("24", 4), ("8", 1), ("4", 1)]⟩),
   ("NVv3", ⟨"NVIDIA M60", [("24", 4), ("12", 2), ("8", 1), ("4", 1)]⟩),
   ("NV", ⟨"NVIDIA M60", [("24", 4), ("12", 2), ("6", 1)]⟩),
   ("ND_MI300X_v5", ⟨"AMD MI300X", [("8", 8)]⟩),
   ("NGads V620", ⟨"AMD V620", [("8", 8), ("4", 4), ("2", 2), ("1", 1)]⟩)]

/-- One raw item of the Azure retail-prices response (the keys the
script reads, each via `.get`). -/
structure VM where
  type : Option String
  skuName : Option String
  productName : Option String
  retailPrice : Option ℚ
  location : Option String
  currencyCode : Option String
deriving DecidableEq

/-- The record `process_gpu_instances` appends; the two ratio keys are
created only inside the `if gpu_count > 0:` block. -/
structure Record where
  vm_size : String
  product_name : String
  description : String
  region : String
  currency : String
  price_per_hour : ℚ
  vcpus : Nat
  memory_gb : Nat
  gpu_model : String
  gpu_count : Nat
  gpu_memory_gb : Nat
  total_gpu_memory_gb : Nat
  price_per_gpu_hour : Option ℚ := none
  price_per_gpu_gb_hour : Option ℚ := none
deriving DecidableEq

/-- Lines 172-174: first `SERIES_GPU_MAP` entry whose key is a
substring of the product name or of the SKU name. -/
def findSeries (product sku : String) : Option (String × SeriesInfo) :=
  SERIES_GPU_MAP.find? (fun si => strContains product si.1 || strContains sku si.1)

/-- Lines 179-191: GPU count from the size suffix.  The source scans
the series' `count_suffix` keys in order and tests each against the
last `'_'`-separated piece of the SKU name; no hit defaults to 1. -/
def suffixCount (info : SeriesInfo) (sku : String) : Nat :=
  let lastPart := (strSplitOnChar '_' sku).getLastD ""
  match info.count_suffix.find? (fun sc => strContains lastPart sc.1) with
  | some sc => (alookup sc.1 info.count_suffix).getD 1
  | none => 1

/-- Lines 199-214: heuristic vCPU extraction from the product
description (last matching part wins; the extracted digit string is
non-empty whenever the guard passes, so `int` never fails here). -/
def vcpuFromDescription (description : String) : Nat :=
  (pySplit description).foldl
    (fun vcpus part =>
      if (["NC", "ND", "NG", "NV"].any (fun s => strContains part s))
          && part.data.any Char.isDigit then
        let digits := digitChars part
        if digits.isEmpty then vcpus else natOfDigits digits
      else vcpus)
    0

/-- The loop body of `process_gpu_instances` for one raw item; `none`
means the item is skipped (wrong type, no GPU-family substring, or no
series match). -/
def processVM (vm : VM) : Option Record :=
  if !(vm.type == some "consumption") then none
  else
    let sku_name := vm.skuName.getD ""
    let product_name := vm.productName.getD ""
    if !(["NC", "ND", "NG", "NV"].any (fun f => strContains sku_name f)) then none
    else
      match findSeries product_name sku_name with
      | none => none
      | some si =>
        let gpu_model := si.2.model
        let gpu_memory_gb := (alookup gpu_model GPU_MODELS).getD 0
        let gpu_count := suffixCount si.2 sku_name
        let description := vm.productName.getD ""
        let vcpus := vcpuFromDescription description
        let price := vm.retailPrice.getD 0
        let base : Record :=
          { vm_size := sku_name
            product_name := product_name
            description := description
            region := vm.location.getD "unknown"
            currency := vm.currencyCode.getD "USD"
            price_per_hour := price
            vcpus := vcpus
            memory_gb := vcpus * 6
            gpu_model := gpu_model
            gpu_count := gpu_count
            gpu_memory_gb := gpu_memory_gb
            total_gpu_memory_gb := gpu_count * gpu_memory_gb }
        some
          (if gpu_count > 0 then
            if base.total_gpu_memory_gb > 0 then
              { base with
                price_per_gpu_hour := some (price / (gpu_count : ℚ))
                price_per_gpu_gb_hour := some (price / (base.total_gpu_memory_gb : ℚ)) }
            else
              { base with price_per_gpu_hour := some (price / (gpu_count : ℚ)) }
          else base)

/-- The sort key relation of line 250: ascending by the pair
`(gpu_model, price_per_hour)` in Python tuple (lexicographic) order. -/
def keyLe (a b : Record) : Prop :=
  a.gpu_model < b.gpu_model ∨ (a.gpu_model = b.gpu_model ∧ a.price_per_hour ≤ b.price_per_hour)

instance : DecidableRel keyLe := fun _ _ =>
  inferInstanceAs (Decidable (_ ∨ _))

instance : IsTotal Record keyLe where
  total a b := by
    rcases lt_trichotomy a.gpu_model b.gpu_model with h | h | h
    · exact Or.inl (Or.inl h)
    · rcases le_total a.price_per_hour b.price_per_hour with hp | hp
      · exact Or.inl (Or.inr ⟨h, hp⟩)
      · exact Or.inr (Or.inr ⟨h.symm, hp⟩)
    · exact Or.inr (Or.inl h)

instance : IsTrans Record keyLe where
  trans a b c hab hbc := by
    rcases hab with hab | ⟨hab, hab'⟩
    · rcases hbc with hbc | ⟨hbc, _⟩
      · exact Or.inl (hab.trans hbc)
      · exact Or.inl (hbc ▸ hab)
    · rcases hbc with hbc | ⟨hbc, hbc'⟩
      · exact Or.inl (hab ▸ hbc)
      · exact Or.inr ⟨hab.trans hbc, hab'.trans hbc'⟩

/-- `process_gpu_instances`: classify every item, then
`gpu_instances.sort(key=lambda x: (x.get('gpu_model', ''), x.get('price_per_hour', 0)))`.
Python's stable sort is modelled by insertion sort over `keyLe`. -/
def process_gpu_instances (vm_data : List VM) : List Record :=
  List.insertionSort keyLe (vm_data.filterMap processVM)

/-- One page of the paginated retail-prices response. -/
structure Page where
  items : List VM
  nextPageLink : Option String
deriving DecidableEq

/-- Lines 124-133: does the loop issue another request after this
page?  `False` covers: no `NextPageLink` key, an empty link
(`if not next_page`), a link without `'skiptoken'`, and a link where
`split('skiptoken=')[1]` would raise `IndexError` (the surrounding
`try/except` then abandons the loop, keeping what was accumulated). -/
def continuesAfter (p : Page) : Bool :=
  match p.nextPageLink with
  | none => false
  | some link =>
    if link == "" then false
    else if strContains link "skiptoken" then
      match strSplitOnStr "skiptoken=" link with
      | _ :: _ :: _ => true
      | _ => false
    else false

/-- `get_azure_vm_pricing`'s pagination loop, interacting with the
sequence of responses the endpoint returns to successive requests.
An exhausted response list models the next request raising, which the
`except` clause turns into returning everything accumulated so far. -/
def get_azure_vm_pricing : List Page → List VM
  | [] => []
  | p :: rest => p.items ++ (if continuesAfter p then get_azure_vm_pricing rest else [])

end Azure

/-! ## GCP pipeline (`get_gcp_gpu_pricing.py`) -/

namespace Gcp

/-- The per-key entry of `GPU_MODELS`. -/
structure GpuModelInfo where
  name : String
  memory_gb : Nat
deriving DecidableEq

/-- `GPU_MODELS` (dict literal; iteration order is insertion order). -/
def GPU_MODELS : List (String × GpuModelInfo) :=
  [("nvidia-h100-80gb", ⟨"NVIDIA H100", 80⟩), ("nvidia-a100-80gb", ⟨"NVIDIA A100", 80⟩),
   ("nvidia-a100", ⟨"NVIDIA A100", 40⟩), ("nvidia-l4", ⟨"NVIDIA L4", 24⟩),
   ("nvidia-t4", ⟨"NVIDIA T4", 16⟩), ("nvidia-v100", ⟨"NVIDIA V100", 16⟩),
   ("nvidia-p100", ⟨"NVIDIA P100", 16⟩), ("nvidia-p4", ⟨"NVIDIA P4", 8⟩),
   ("nvidia-k80", ⟨"NVIDIA K80", 12⟩)]

/-- `GPU_MACHINE_TYPE_PREFIXES`. -/
def GPU_MACHINE_TYPE_PREFIXES : List String :=
  ["a3-", "a2-", "g2-", "n1-", "n2-", "n2d-", "c2-", "c2d-", "h3-"]

/-- The per-series entry of `MACHINE_GPU_MAP`. -/
structure MachineGpuInfo where
  model : String
  default_count : Int
deriving DecidableEq

/-- `MACHINE_GPU_MAP`. -/
def MACHINE_GPU_MAP : List (String × MachineGpuInfo) :=
  [("a3", ⟨"nvidia-h100-80gb", 8⟩), ("a2", ⟨"nvidia-a100", 4⟩),
   ("g2", ⟨"nvidia-l4", 1⟩), ("h3", ⟨"nvidia-h100-80gb", 8⟩)]

/-- One `tieredRates` element; missing `unitPrice`/`units`/`nanos`
keys are collapsed to 0 exactly as the source's `.get(..., 0)`
defaults do. -/
structure TieredRate where
  units : Int
  nanos : Int
deriving DecidableEq

/-- One `pricingInfo` element (only `pricingExpression.tieredRates` is
read; a missing path is the empty list, as with `.get(..., [])`). -/
structure PricingInfo where
  tieredRates : List TieredRate
deriving DecidableEq

/-- The `category` dictionary of a SKU. -/
structure Category where
  resourceFamily : Option String
  serviceDisplayName : Option String
deriving DecidableEq

/-- One billing SKU (the keys the script reads). -/
structure Sku where
  category : Option Category
  description : Option String
  pricingInfo : List PricingInfo
  serviceRegions : List String
deriving DecidableEq

/-- `units + nanos / 1_000_000_000`. -/
def rateValue (p : TieredRate) : ℚ :=
  (p.units : ℚ) + (p.nanos : ℚ) / 1000000000

/-- The inner `for p in tier...tieredRates` loop: the first rate with
`units > 0 or nanos > 0` sets the price and `break`s; otherwise the
accumulated price is left untouched. -/
def entryFirstNZ (tier : PricingInfo) : Option ℚ :=
  (tier.tieredRates.find? (fun p => decide (0 < p.units) || decide (0 < p.nanos))).map rateValue

/-- Lines 92-99 and 156-163: the full price-selection double loop.
The `break` leaves only the inner loop, so each `pricingInfo` entry
that contains a qualifying rate overwrites the price found so far. -/
def selectPrice (pis : List PricingInfo) : Option ℚ :=
  pis.foldl (fun price tier => match entryFirstNZ tier with | some v => some v | none => price) none

/-- The value stored in `gpu_attachments[region][gpu_type]`. -/
structure AttachInfo where
  price_per_hour : Option ℚ
  price_per_hour_usd : Option ℚ
  description : String
  gpu_model : String
  memory_gb : Nat
deriving DecidableEq

/-- `gpu_attachments` as a write-log: later writes shadow earlier ones
because lookup takes the first (most recent) hit. -/
def AttachMap : Type := List ((String × String) × AttachInfo)

/-- Overwriting insert for key `(region, gpu_type)`. -/
def amUpsert (m : AttachMap) (k : String × String) (v : AttachInfo) : AttachMap :=
  ((k, v) :: m : List _)

/-- Dictionary lookup for key `(region, gpu_type)`. -/
def amLookup (m : AttachMap) (k : String × String) : Option AttachInfo :=
  ((m : List _).find? (fun kv => kv.1 == k)).map (fun kv => kv.2)

/-- Lines 79-81: is this SKU a GPU accelerator attachment? -/
def isAttachmentSku (sku : Sku) : Bool :=
  ((sku.category.bind (fun c => c.resourceFamily)).getD "" == "Compute")
    && strContains (sku.description.getD "") "GPU"
    && strContains (strLower (sku.description.getD "")) "cost"

/-- Lines 84-89: first `GPU_MODELS` key whose key or display name
occurs (case-insensitively) in the description. -/
def findGpuType (description : String) : Option String :=
  (GPU_MODELS.find? (fun km =>
      strContains (strUpper description) (strUpper km.1)
        || strContains (strUpper description) (strUpper km.2.name))).map (fun km => km.1)

/-- The body of the first pass for one SKU. -/
def attachStep (m : AttachMap) (sku : Sku) : AttachMap :=
  if isAttachmentSku sku then
    match findGpuType (sku.description.getD "") with
    | none => m
    | some gpu_type =>
      let price := selectPrice sku.pricingInfo
      let info : AttachInfo :=
        { price_per_hour := price
          price_per_hour_usd := price
          description := sku.description.getD ""
          gpu_model := ((alookup gpu_type GPU_MODELS).map (fun g => g.name)).getD "Unknown"
          memory_gb := ((alookup gpu_type GPU_MODELS).map (fun g => g.memory_gb)).getD 0 }
      sku.serviceRegions.foldl (fun m' region => amUpsert m' (region, gpu_type) info) m
  else m

/-- First pass of `filter_gpu_instances`: build `gpu_attachments`. -/
def buildAttachments (skus : List Sku) : AttachMap :=
  skus.foldl attachStep ([] : List _)

/-- Lines 117-121: is this SKU a Compute Engine VM SKU? -/
def isVmSku (sku : Sku) : Bool :=
  ((sku.category.bind (fun c => c.resourceFamily)).getD "" == "Compute")
    && ((sku.category.bind (fun c => c.serviceDisplayName)).getD "" == "Compute Engine")

/-- Lines 125-129: `machine_type` is the description itself when any
tracked machine-type marker occurs in its lowercase form. -/
def machineTypeOf (description : String) : Option String :=
  if GPU_MACHINE_TYPE_PREFIXES.any (fun pre => strContains (strLower description) pre) then
    some description
  else none

/-- Lines 141-153: extract vCPUs and memory from the description
words.  `parts[i-1]` uses Python negative indexing when `i = 0`; parse
failures are swallowed, keeping the previous value. -/
def extractVcpuMem (parts : List String) : Int × ℚ :=
  parts.enum.foldl
    (fun acc ip =>
      let i := ip.1
      let part := ip.2
      let acc1 :=
        if strLower part == "vcpu" || strLower part == "vcpus" then
          match pyIndex parts ((i : Int) - 1) with
          | some s => (match pyInt? s with | some n => (n, acc.2) | none => acc)
          | none => acc
        else acc
      if strContains (strLower part) "gb" && decide (0 < i) then
        match pyIndex parts ((i : Int) - 1) with
        | some s => (match pyFloat? s with | some q => (acc1.1, q) | none => acc1)
        | none => acc1
      else acc1)
    ((0 : Int), (0 : ℚ))

/-- Lines 169-173: first `MACHINE_GPU_MAP` key the lowercased machine
type starts with. -/
def findMachineSeries (machine_type : String) : Option String :=
  (MACHINE_GPU_MAP.find? (fun sm => strStartsWith sm.1 (strLower machine_type))).map
    (fun sm => sm.1)

/-- Lines 185-191: in-text GPU count; the last successfully parsed
`parts[i-1]` next to a `gpu`/`gpus` word wins, parse failures keep the
previous value. -/
def textGpuCount (parts : List String) : Option Int :=
  parts.enum.foldl
    (fun acc ip =>
      let i := ip.1
      let part := ip.2
      if strLower part == "gpu" || strLower part == "gpus" then
        match pyIndex parts ((i : Int) - 1) with
        | some s => (match pyInt? s with | some n => some n | none => acc)
        | none => acc
      else acc)
    none

/-- Lines 177-191: final GPU count: the series default, overridden to
8 for `highgpu` machine types, else to 4 for `standard` ones, then
overridden again by any count parsed from the description text. -/
def determineGpuCount (machine_type : String) (parts : List String) (default_count : Int) : Int :=
  let base :=
    if strContains (strLower machine_type) "highgpu" then 8
    else if strContains (strLower machine_type) "standard" then 4
    else default_count
  (textGpuCount parts).getD base

/-- The record `filter_gpu_instances` emits.  `none` marks a key never
created on the dictionary. -/
structure Record where
  machine_type : String
  description : String
  regions : List String
  vcpus : Int
  memory_gb : ℚ
  price_per_hour : Option ℚ
  price_per_hour_usd : Option ℚ
  gpu_model : Option String := none
  gpu_memory_gb : Option Nat := none
  gpu_count : Option Int := none
  total_gpu_memory_gb : Option Int := none
  total_price_per_hour : Option ℚ := none
  total_price_per_hour_usd : Option ℚ := none
  price_per_gpu_hour : Option ℚ := none
  price_per_gpu_hour_usd : Option ℚ := none
  price_per_gpu_gb_hour : Option ℚ := none
  price_per_gpu_gb_hour_usd : Option ℚ := none
deriving DecidableEq

/-- Lines 194-214, one region.  The source mutates one shared
dictionary and appends it once per matching region, so the state is
the record plus the number of appends so far.  A `None` attachment
price makes `None * gpu_count` raise `TypeError`; a zero GPU count
under a truthy VM price makes the division raise `ZeroDivisionError`;
either aborts the whole run (there is no `try` here). -/
def regionStep (attach : AttachMap) (gpu_model_key : String) (gpu_count : Int)
    (st : Record × Nat) (region : String) : Except String (Record × Nat) :=
  match amLookup attach (region, gpu_model_key) with
  | none => .ok st
  | some a =>
    let r0 := st.1
    let r1 : Record :=
      { r0 with
        gpu_model := some a.gpu_model
        gpu_memory_gb := some a.memory_gb
        gpu_count := some gpu_count
        total_gpu_memory_gb := some (gpu_count * (a.memory_gb : Int)) }
    match a.price_per_hour with
    | none => .error "TypeError: unsupported operand types NoneType and int"
    | some ap =>
      let gpu_price := ap * (gpu_count : ℚ)
      match r1.price_per_hour with
      | some p =>
        if p == 0 then .ok (r1, st.2 + 1)
        else
          let total := p + gpu_price
          if gpu_count == 0 then .error "ZeroDivisionError: float division by zero"
          else
            let r2 : Record :=
              { r1 with
                total_price_per_hour := some total
                total_price_per_hour_usd := some total
                price_per_gpu_hour := some (total / (gpu_count : ℚ))
                price_per_gpu_hour_usd := some (total / (gpu_count : ℚ)) }
            let r3 : Record :=
              if decide ((0 : Int) < gpu_count * (a.memory_gb : Int)) then
                { r2 with
                  price_per_gpu_gb_hour := some (total / ((gpu_count * (a.memory_gb : Int) : Int) : ℚ))
                  price_per_gpu_gb_hour_usd := some (total / ((gpu_count * (a.memory_gb : Int) : Int) : ℚ)) }
              else r2
            .ok (r3, st.2 + 1)
      | none => .ok (r1, st.2 + 1)

/-- The `for region in instance_details['regions']:` loop. -/
def regionLoop (attach : AttachMap) (gpu_model_key : String) (gpu_count : Int) :
    List String → Record × Nat → Except String (Record × Nat)
  | [], st => .ok st
  | region :: rest, st =>
    match regionStep attach gpu_model_key gpu_count st region with
    | .error e => .error e
    | .ok st1 => regionLoop attach gpu_model_key gpu_count rest st1

/-- Second pass of `filter_gpu_instances` for one SKU: the emitted
copies all alias the shared dictionary, so the output is the final
state replicated once per append. -/
def processVmSku (attach : AttachMap) (sku : Sku) : Except String (List Record) :=
  if !(isVmSku sku) then .ok []
  else
    let description := sku.description.getD ""
    match machineTypeOf description with
    | none => .ok []
    | some machine_type =>
      let parts := pySplit description
      let vm := extractVcpuMem parts
      let price := selectPrice sku.pricingInfo
      let base : Record :=
        { machine_type := machine_type
          description := description
          regions := sku.serviceRegions
          vcpus := vm.1
          memory_gb := vm.2
          price_per_hour := price
          price_per_hour_usd := price }
      match findMachineSeries machine_type with
      | none => .ok []
      | some series =>
        let minfo := (alookup series MACHINE_GPU_MAP).getD ⟨"", 0⟩
        let gpu_model := minfo.model
        let gpu_count := determineGpuCount machine_type parts minfo.default_count
        match regionLoop attach gpu_model gpu_count sku.serviceRegions (base, 0) with
        | .error e => .error e
        | .ok fk => .ok (List.replicate fk.2 fk.1)

/-- The second-pass loop over all SKUs, concatenating the emitted
records; any exception aborts the whole run. -/
def collectVmSkus (attach : AttachMap) : List Sku → Except String (List Record)
  | [] => .ok []
  | sku :: rest =>
    match processVmSku attach sku with
    | .error e => .error e
    | .ok l =>
      match collectVmSkus attach rest with
      | .error e => .error e
      | .ok ls => .ok (l ++ ls)

/-- `filter_gpu_instances`: first pass builds the attachments, second
pass emits VM records. -/
def filter_gpu_instances (skus : List Sku) : Except String (List Record) :=
  collectVmSkus (buildAttachments skus) skus

/-- The single pricing-API response consumed by
`get_compute_engine_products`. -/
structure ApiResponse where
  skus : List Sku
  nextPageToken : Option String
deriving DecidableEq

/-- `get_compute_engine_products`: one request; `data.get('skus', [])`
is returned and the response's `nextPageToken` is never consulted.
`none` models the request (or `raise_for_status`) raising, which the
`except` clause turns into `[]`. -/
def get_compute_engine_products (resp : Option ApiResponse) : List Sku :=
  match resp with
  | none => []
  | some d => d.skus

end Gcp

/-! ## Invariant shapes used by the verification -/

/-- The memory the GCP tables associate with a GPU-type key. -/
def gcpModelMemOf (t : String) : Nat :=
  ((alookup t Gcp.GPU_MODELS).map (fun g => g.memory_gb)).getD 0

/-- Every attachment stored for a GPU-type key carries that key's
table memory. -/
def gcpAttachMemInv (m : Gcp.AttachMap) : Prop :=
  ∀ k i, Gcp.amLookup m k = some i → i.memory_gb = gcpModelMemOf k.2

/-- The state invariant of the GCP region loop: either no GPU field
has been written yet (and no ratio field either), or all three GPU
fields hold the loop constants with `total = count * memory`, and a
ratio field can only be present when its divisor was non-zero at the
time of the division. -/
def gcpRecInv (gc : Int) (M : Nat) (r : Gcp.Record) : Prop :=
  (r.gpu_count = none ∧ r.gpu_memory_gb = none ∧ r.total_gpu_memory_gb = none
    ∧ r.price_per_gpu_hour = none ∧ r.price_per_gpu_gb_hour = none)
  ∨ (r.gpu_count = some gc ∧ r.gpu_memory_gb = some M
    ∧ r.total_gpu_memory_gb = some (gc * (M : Int))
    ∧ (r.price_per_gpu_hour ≠ none → gc ≠ 0)
    ∧ (r.price_per_gpu_gb_hour ≠ none → 0 < gc * (M : Int)))

/-! ## Concrete inputs used in the evaluations below -/

/-- An Azure retail-price item with the SKU name from the spec's
testable property (product name left empty; real catalog product
names such as `Virtual Machines NCads H100 v5 Series` do not contain
the underscore form `NCads_H100_v5` either). -/
def c1_vm : Azure.VM :=
  { type := some "consumption", skuName := some "Standard_NC24ads_H100_v5",
    productName := some "", retailPrice := some 1,
    location := some "eastus", currencyCode := some "USD" }

/-- A SKU sitting on the first page of a paginated GCP response. -/
def c2_sku_page1 : Gcp.Sku :=
  { category := none, description := some "first page sku", pricingInfo := [], serviceRegions := [] }

/-- A SKU sitting on the second page of a paginated GCP response. -/
def c2_sku_page2 : Gcp.Sku :=
  { category := none, description := some "second page sku", pricingInfo := [], serviceRegions := [] }

/-- First page: carries a next-page token. -/
def c2_resp1 : Gcp.ApiResponse := { skus := [c2_sku_page1], nextPageToken := some "tok-2" }

/-- Second page: final page. -/
def c2_resp2 : Gcp.ApiResponse := { skus := [c2_sku_page2], nextPageToken := none }

/-- Modelled from the spec: the fetch contract "keep calling until a
response omits the token, concatenating all pages without duplication
or loss" — the concatenation of every page's SKUs.  (The GCP script
has no pagination code to embed; this is the spec-side reference the
code is compared against.) -/
def gcpFetchAllPagesSpec (pages : List Gcp.ApiResponse) : List Gcp.Sku :=
  (pages.map (fun p => p.skus)).flatten

/-- An arbitrary Azure item used to populate pagination pages. -/
def c2_vm1 : Azure.VM :=
  { type := some "consumption", skuName := some "Standard_NC6",
    productName := some "Virtual Machines NC Series", retailPrice := some 1,
    location := some "eastus", currencyCode := some "USD" }

/-- A non-final Azure page whose `NextPageLink` carries a skiptoken. -/
def c2_page_a : Azure.Page :=
  { items := [c2_vm1],
    nextPageLink := some "https://prices.azure.com/api/retail/prices?$skiptoken=AAA" }

/-- A final Azure page (no `NextPageLink`). -/
def c2_page_b : Azure.Page := { items := [], nextPageLink := none }

/-- An AWS record whose `GpuInfo.Gpus` list is present but empty. -/
def c4_instance : Aws.ApiInstanceType :=
  { instanceType := "p5.48xlarge", gpuInfo := some { gpus := some [] },
    defaultVCpus := some 192, memSizeInMiB := some 2097152 }

/-- A pricing response carrying an on-demand USD price of 1. -/
def c5_resp : Aws.PriceResponse :=
  { priceList := [{ onDemand :=
      [("t1", { priceDimensions := [("d1", { pricePerUnit := [("USD", 1)] })] })] }] }

/-- A pricing oracle answering only for `g5g.metal`. -/
def c5_oracle : String → Option Aws.PriceResponse :=
  fun s => if s == "g5g.metal" then some c5_resp else none

/-- A `g5g.metal` catalog record: GPU family match, but no `xlarge`
marker in the size, so the count heuristic leaves the GPU count 0. -/
def c5_instance : Aws.ApiInstanceType :=
  { instanceType := "g5g.metal", gpuInfo := none,
    defaultVCpus := some 64, memSizeInMiB := some 131072 }

/-- The record the AWS pipeline emits for `c5_instance` under
`c5_oracle`: priced, GPU count 0, and both ratio keys present holding
`null`. -/
def c5_record : Aws.Record :=
  { instance_type := "g5g.metal", family := "g5", vcpus := 64, memory_gb := 128,
    gpu_count := 0, gpu_model := some "NVIDIA A10G", gpu_memory_gb := 24,
    total_gpu_memory_gb := 0, price_per_hour_usd := some (some 1),
    price_per_gpu_hour := some none, price_per_gpu_gb_hour := some none }

/-- An AWS record whose price key holds `null`. -/
def c6_record : Aws.Record :=
  { instance_type := "p4d.24xlarge", family := "p4d", vcpus := 96, memory_gb := 1152,
    gpu_count := 8, gpu_model := some "NVIDIA A100", gpu_memory_gb := 80,
    total_gpu_memory_gb := 640, price_per_hour_usd := some none }

/-- The record the Azure pipeline emits for `c1_vm` (series entry
`"NC"`, model `NVIDIA K80`, count 1). -/
def c1_record : Azure.Record :=
  { vm_size := "Standard_NC24ads_H100_v5", product_name := "", description := "",
    region := "eastus", currency := "USD", price_per_hour := 1, vcpus := 0,
    memory_gb := 0, gpu_model := "NVIDIA K80", gpu_count := 1, gpu_memory_gb := 12,
    total_gpu_memory_gb := 12, price_per_gpu_hour := some 1,
    price_per_gpu_gb_hour := some (1 / 12) }

/-- A GPU-attachment SKU (first-pass match) priced at 2 per hour in
`us-central1`. -/
def c7_attach_sku : Gcp.Sku :=
  { category := some { resourceFamily := some "Compute", serviceDisplayName := none },
    description := some "Nvidia H100 GPU running cost",
    pricingInfo := [{ tieredRates := [{ units := 2, nanos := 0 }] }],
    serviceRegions := ["us-central1"] }

/-- A Compute Engine VM SKU for an `a3-highgpu` machine in
`us-central1`, priced at 1 per hour. -/
def c7_vm_sku : Gcp.Sku :=
  { category := some { resourceFamily := some "Compute", serviceDisplayName := some "Compute Engine" },
    description := some "A3-highgpu-8g 208 vCPU 1872 GB in Americas",
    pricingInfo := [{ tieredRates := [{ units := 1, nanos := 0 }] }],
    serviceRegions := ["us-central1"] }

/-- The record `filter_gpu_instances` emits for the two SKUs above. -/
def c7_gcp_record : Gcp.Record :=
  { machine_type := "A3-highgpu-8g 208 vCPU 1872 GB in Americas",
    description := "A3-highgpu-8g 208 vCPU 1872 GB in Americas",
    regions := ["us-central1"], vcpus := 208, memory_gb := 1872,
    price_per_hour := some 1, price_per_hour_usd := some 1,
    gpu_model := some "NVIDIA H100", gpu_memory_gb := some 80,
    gpu_count := some 8, total_gpu_memory_gb := some 640,
    total_price_per_hour := some 17, total_price_per_hour_usd := some 17,
    price_per_gpu_hour := some (17 / 8), price_per_gpu_hour_usd := some (17 / 8),
    price_per_gpu_gb_hour := some (17 / 640), price_per_gpu_gb_hour_usd := some (17 / 640) }

/-- Multi-entry `pricingInfo`: first entry's first non-zero rate is 1,
second entry's is 2. -/
def c8_pricing : List Gcp.PricingInfo :=
  [{ tieredRates := [{ units := 1, nanos := 0 }] },
   { tieredRates := [{ units := 2, nanos := 0 }] }]

/-- Modelled from the spec: "selects exactly the first non-zero
tiered rate encountered, in the order the rates appear in the
response", across all `pricingInfo` entries. -/
def firstNZRateSpec (pis : List Gcp.PricingInfo) : Option ℚ :=
  (((pis.map (fun t => t.tieredRates)).flatten.find?
      (fun p => decide (0 < p.units) || decide (0 < p.nanos))).map Gcp.rateValue)

/-- A description that identifies the `a3` series, contains no
explicit in-text GPU count, and contains the word `standard`. -/
def c9_description : String := "a3-standard GPU"

/-- A Compute Engine VM SKU whose description text parses an explicit
GPU count of 0 (`... 0 gpus ...`), priced (truthy) and sharing a
region with a priced GPU attachment: the per-GPU division then runs
with divisor 0. -/
def c5_gcp_zero_sku : Gcp.Sku :=
  { category := some { resourceFamily := some "Compute", serviceDisplayName := some "Compute Engine" },
    description := some "A3-custom 0 gpus in Americas",
    pricingInfo := [{ tieredRates := [{ units := 1, nanos := 0 }] }],
    serviceRegions := ["us-central1"] }

/-! ## Helper lemmas -/

set_option maxHeartbeats 2000000 in
/-- Evaluation of the Azure classifier on the `Standard_NC24ads_H100_v5`
item: the generic `"NC"` series entry matches first, so the record
carries model `NVIDIA K80` and count 1. -/
theorem azure_eval_c1 : Azure.processVM c1_vm = some c1_record := by
  simp [Azure.processVM, Azure.findSeries, Azure.suffixCount, Azure.vcpuFromDescription,
    Azure.SERIES_GPU_MAP, Azure.GPU_MODELS, c1_vm, c1_record, alookup, strContains,
    strStartsWith, strSplitOnChar, splitOnCharAux, chStartsWith, chContainsSub, pySplit,
    pySplitAux, digitChars, natOfDigits, List.find?]

/-- Any record the Azure classifier emits carries the raw
`retailPrice` (default 0) as its price, satisfies the total-memory
product invariant, and omits a ratio key whenever its divisor is
zero. -/
theorem azure_processVM_fields {vm : Azure.VM} {r : Azure.Record}
    (h : Azure.processVM vm = some r) :
    r.price_per_hour = vm.retailPrice.getD 0
    ∧ r.total_gpu_memory_gb = r.gpu_count * r.gpu_memory_gb
    ∧ (r.gpu_count = 0 → r.price_per_gpu_hour = none)
    ∧ (r.total_gpu_memory_gb = 0 → r.price_per_gpu_gb_hour = none) := by
  rw [Azure.processVM] at h
  simp only [] at h
  split at h
  · exact absurd h (by simp)
  · split at h
    · exact absurd h (by simp)
    · split at h
      · exact absurd h (by simp)
      · rename_i si heq
        have h' := Option.some.inj h
        subst h'
        split
        · rename_i hc
          split
          · rename_i ht
            refine ⟨rfl, rfl, ?_, ?_⟩
            · intro h0; dsimp only at h0; omega
            · intro h0; dsimp only at h0; omega
          · rename_i ht
            refine ⟨rfl, rfl, ?_, ?_⟩
            · intro h0; dsimp only at h0; omega
            · intro _; rfl
        · refine ⟨rfl, rfl, fun _ => rfl, fun _ => rfl⟩

/-- The price-selection fold, for an arbitrary accumulator: the result
is the last per-entry first-non-zero rate, falling back to the
accumulator. -/
theorem gcp_selectPrice_foldl (pis : List Gcp.PricingInfo) (acc : Option ℚ) :
    pis.foldl (fun price tier =>
        match Gcp.entryFirstNZ tier with | some v => some v | none => price) acc
      = match (pis.filterMap Gcp.entryFirstNZ).getLast? with
        | some v => some v
        | none => acc := by
  induction pis using List.reverseRecOn with
  | nil => simp
  | append_singleton l t ih =>
    rw [List.foldl_append, List.filterMap_append]
    cases hnz : Gcp.entryFirstNZ t with
    | some v => simp [hnz, List.getLast?_concat]
    | none => simp [hnz, ih]

/-- `selectPrice` returns the first non-zero rate of the LAST
`pricingInfo` entry that has one. -/
theorem gcp_selectPrice_eq_last (pis : List Gcp.PricingInfo) :
    Gcp.selectPrice pis = (pis.filterMap Gcp.entryFirstNZ).getLast? := by
  rw [Gcp.selectPrice, gcp_selectPrice_foldl]
  cases (pis.filterMap Gcp.entryFirstNZ).getLast? <;> rfl


/-- A record whose price key is missing or holds `null` passes through
the derived-metrics loop body unchanged (`del instance` only unbinds
the loop variable). -/
theorem aws_deriveOne_unpriced (r : Aws.Record)
    (h : r.price_per_hour_usd = none ∨ r.price_per_hour_usd = some none) :
    Aws.deriveOne r = r := by
  rcases h with h | h <;> simp [Aws.deriveOne, h]

/-- Whether the Azure classifier keeps an item never depends on its
`retailPrice`. -/
theorem azure_processVM_isSome_price (vm : Azure.VM) (p : Option ℚ) :
    (Azure.processVM { vm with retailPrice := p }).isSome = (Azure.processVM vm).isSome := by
  rw [Azure.processVM, Azure.processVM]
  dsimp only
  split
  · rfl
  · split
    · rfl
    · split <;> rfl

theorem aws_processInstanceType_ok {it : Aws.ApiInstanceType} {r : Aws.Record}
    (h : Aws.processInstanceType it = .ok (some r)) :
    r.price_per_hour_usd = none ∧ r.price_per_gpu_hour = none
    ∧ r.price_per_gpu_gb_hour = none
    ∧ r.total_gpu_memory_gb = (r.gpu_count : ℚ) * r.gpu_memory_gb := by
  rw [Aws.processInstanceType] at h
  split at h
  · split at h
    · exact absurd h (by simp)
    · rename_i trip heq
      have h1 := Except.ok.inj h
      have h2 := Option.some.inj h1
      subst h2
      exact ⟨rfl, rfl, rfl, rfl⟩
  · exact absurd h (by simp)

theorem aws_collectInstances_mem :
    ∀ {l : List Aws.ApiInstanceType} {out : List Aws.Record},
      Aws.collectInstances l = .ok out → ∀ r ∈ out,
        r.price_per_hour_usd = none ∧ r.price_per_gpu_hour = none
        ∧ r.price_per_gpu_gb_hour = none
        ∧ r.total_gpu_memory_gb = (r.gpu_count : ℚ) * r.gpu_memory_gb := by
  intro l
  induction l with
  | nil =>
    intro out h r hr
    rw [Aws.collectInstances] at h
    have := Except.ok.inj h
    subst this
    exact absurd hr (by simp)
  | cons it rest ih =>
    intro out h r hr
    rw [Aws.collectInstances] at h
    split at h
    · exact absurd h (by simp)
    · rename_i ro hro
      split at h
      · exact absurd h (by simp)
      · rename_i rs hrs
        have := Except.ok.inj h
        subst this
        cases ro with
        | none => exact ih hrs r hr
        | some r0 =>
          rcases List.mem_cons.mp hr with hr0 | hrr
          · subst hr0
            exact aws_processInstanceType_ok hro
          · exact ih hrs r hrr

theorem aws_deriveOne_keeps (inst : Aws.Record) :
    (Aws.deriveOne inst).gpu_count = inst.gpu_count
    ∧ (Aws.deriveOne inst).gpu_memory_gb = inst.gpu_memory_gb
    ∧ (Aws.deriveOne inst).total_gpu_memory_gb = inst.total_gpu_memory_gb := by
  rw [Aws.deriveOne]
  split
  · dsimp only
    split <;> split <;> exact ⟨rfl, rfl, rfl⟩
  · exact ⟨rfl, rfl, rfl⟩

theorem aws_deriveOne_divzero (inst : Aws.Record)
    (h1 : inst.price_per_gpu_hour = none) (h2 : inst.price_per_gpu_gb_hour = none) :
    (inst.gpu_count = 0 →
      (Aws.deriveOne inst).price_per_gpu_hour = none
      ∨ (Aws.deriveOne inst).price_per_gpu_hour = some none)
    ∧ (inst.total_gpu_memory_gb = 0 →
      (Aws.deriveOne inst).price_per_gpu_gb_hour = none
      ∨ (Aws.deriveOne inst).price_per_gpu_gb_hour = some none) := by
  constructor
  · intro h0
    rw [Aws.deriveOne]
    split
    · dsimp only
      rw [h0]
      have hng : ¬ ((0 : Nat) > 0) := by omega
      rw [if_neg hng]
      split <;> exact Or.inr rfl
    · exact Or.inl h1
  · intro h0
    rw [Aws.deriveOne]
    split
    · dsimp only
      split <;>
        · rw [if_neg (by simp [h0])]
          exact Or.inr rfl
    · exact Or.inl h2

theorem aws_pipeline_mem {oracle : String → Option Aws.PriceResponse}
    {pages : List (List Aws.ApiInstanceType)} {out : List Aws.Record}
    (h : Aws.pipeline oracle pages = .ok out) {r : Aws.Record} (hr : r ∈ out) :
    (r.gpu_count = 0 → r.price_per_gpu_hour = none ∨ r.price_per_gpu_hour = some none)
    ∧ (r.total_gpu_memory_gb = 0 →
        r.price_per_gpu_gb_hour = none ∨ r.price_per_gpu_gb_hour = some none)
    ∧ r.total_gpu_memory_gb = (r.gpu_count : ℚ) * r.gpu_memory_gb := by
  rw [Aws.pipeline] at h
  split at h
  · exact absurd h (by simp)
  · rename_i l hl
    have hout := Except.ok.inj h
    subst hout
    rw [Aws.calculate_derived_metrics] at hr
    rcases List.mem_map.mp hr with ⟨inst, hinst, hri⟩
    rw [Aws.get_instance_pricing] at hinst
    rcases List.mem_map.mp hinst with ⟨r0, hr0, hir⟩
    have props := aws_collectInstances_mem hl r0 hr0
    subst hir
    subst hri
    have keeps := aws_deriveOne_keeps ({ r0 with
      price_per_hour_usd := some (Aws.resolvePrice oracle r0.instance_type) })
    have divz := aws_deriveOne_divzero ({ r0 with
      price_per_hour_usd := some (Aws.resolvePrice oracle r0.instance_type) })
      props.2.1 props.2.2.1
    refine ⟨?_, ?_, ?_⟩
    · intro h0
      rw [keeps.1] at h0
      exact divz.1 h0
    · intro h0
      rw [keeps.2.2] at h0
      exact divz.2 h0
    · rw [keeps.1, keeps.2.1, keeps.2.2]
      exact props.2.2.2

theorem gcp_amUpsert_inv {m : Gcp.AttachMap} (hm : gcpAttachMemInv m)
    {k : String × String} {v : Gcp.AttachInfo} (hv : v.memory_gb = gcpModelMemOf k.2) :
    gcpAttachMemInv (Gcp.amUpsert m k v) := by
  intro k' i h
  rw [Gcp.amLookup, Gcp.amUpsert] at h
  rw [List.find?] at h
  split at h
  · rename_i heq
    simp at heq h
    subst h
    rw [← heq]
    exact hv
  · exact hm k' i h

theorem gcp_attachStep_inv {m : Gcp.AttachMap} (hm : gcpAttachMemInv m) (sku : Gcp.Sku) :
    gcpAttachMemInv (Gcp.attachStep m sku) := by
  rw [Gcp.attachStep]
  split
  · split
    · exact hm
    · rename_i gpu_type hgt
      dsimp only
      have hgen : ∀ (regions : List String) (m0 : Gcp.AttachMap), gcpAttachMemInv m0 →
          gcpAttachMemInv (regions.foldl (fun m' region => Gcp.amUpsert m' (region, gpu_type)
            { price_per_hour := Gcp.selectPrice sku.pricingInfo
              price_per_hour_usd := Gcp.selectPrice sku.pricingInfo
              description := sku.description.getD ""
              gpu_model := ((alookup gpu_type Gcp.GPU_MODELS).map (fun g => g.name)).getD "Unknown"
              memory_gb := ((alookup gpu_type Gcp.GPU_MODELS).map (fun g => g.memory_gb)).getD 0 }) m0) := by
        intro regions
        induction regions with
        | nil => intro m0 hm0; exact hm0
        | cons x xs ih =>
          intro m0 hm0
          rw [List.foldl_cons]
          exact ih _ (gcp_amUpsert_inv hm0 rfl)
      exact hgen sku.serviceRegions m hm
  · exact hm

theorem gcp_buildAttachments_inv (skus : List Gcp.Sku) :
    gcpAttachMemInv (Gcp.buildAttachments skus) := by
  rw [Gcp.buildAttachments]
  have hgen : ∀ (l : List Gcp.Sku) (m0 : Gcp.AttachMap), gcpAttachMemInv m0 →
      gcpAttachMemInv (l.foldl Gcp.attachStep m0) := by
    intro l
    induction l with
    | nil => intro m0 hm0; exact hm0
    | cons x xs ih =>
      intro m0 hm0
      rw [List.foldl_cons]
      exact ih _ (gcp_attachStep_inv hm0 x)
  exact hgen skus [] (by intro k i h; rw [Gcp.amLookup] at h; simp [List.find?] at h)

theorem gcp_regionStep_inv {attach : Gcp.AttachMap} (hA : gcpAttachMemInv attach)
    {key : String} {gc : Int} {st st' : Gcp.Record × Nat} {region : String}
    (h : Gcp.regionStep attach key gc st region = .ok st')
    (hI : gcpRecInv gc (gcpModelMemOf key) st.1) :
    gcpRecInv gc (gcpModelMemOf key) st'.1 := by
  rw [Gcp.regionStep] at h
  split at h
  · have := Except.ok.inj h
    subst this
    exact hI
  · rename_i a ha
    have hmem : a.memory_gb = gcpModelMemOf key := hA (region, key) a ha
    have hgpu : (st.1.price_per_gpu_hour ≠ none → gc ≠ 0)
        ∧ (st.1.price_per_gpu_gb_hour ≠ none → 0 < gc * ((gcpModelMemOf key : Nat) : Int)) := by
      rcases hI with ⟨_, _, _, h4, h5⟩ | ⟨_, _, _, h4, h5⟩
      · exact ⟨fun hc => absurd h4 hc, fun hc => absurd h5 hc⟩
      · exact ⟨h4, h5⟩
    split at h
    · exact absurd h (by simp)
    · rename_i ap hap
      dsimp only at h
      split at h
      · rename_i p hp
        split at h
        · have := Except.ok.inj h
          subst this
          refine Or.inr ⟨rfl, by rw [hmem], by rw [hmem], ?_, ?_⟩
          · intro hc; exact hgpu.1 hc
          · intro hc; exact hgpu.2 hc
        · split at h
          · exact absurd h (by simp)
          · rename_i hgc0
            split at h
            · rename_i hpos
              have := Except.ok.inj h
              subst this
              refine Or.inr ⟨rfl, by rw [hmem], by rw [hmem], ?_, ?_⟩
              · intro _
                intro hgc
                rw [hgc] at hgc0
                exact hgc0 (by simp)
              · intro _
                rw [← hmem]
                exact of_decide_eq_true hpos
            · have := Except.ok.inj h
              subst this
              refine Or.inr ⟨rfl, by rw [hmem], by rw [hmem], ?_, ?_⟩
              · intro _
                intro hgc
                rw [hgc] at hgc0
                exact hgc0 (by simp)
              · intro hc
                exact hgpu.2 hc
      · have := Except.ok.inj h
        subst this
        refine Or.inr ⟨rfl, by rw [hmem], by rw [hmem], ?_, ?_⟩
        · intro hc; exact hgpu.1 hc
        · intro hc; exact hgpu.2 hc

theorem gcp_regionLoop_inv {attach : Gcp.AttachMap} (hA : gcpAttachMemInv attach)
    {key : String} {gc : Int} :
    ∀ (regions : List String) (st st' : Gcp.Record × Nat),
      Gcp.regionLoop attach key gc regions st = .ok st' →
      gcpRecInv gc (gcpModelMemOf key) st.1 →
      gcpRecInv gc (gcpModelMemOf key) st'.1 := by
  intro regions
  induction regions with
  | nil =>
    intro st st' h hI
    rw [Gcp.regionLoop] at h
    have := Except.ok.inj h
    subst this
    exact hI
  | cons x xs ih =>
    intro st st' h hI
    rw [Gcp.regionLoop] at h
    split at h
    · exact absurd h (by simp)
    · rename_i st1 hst1
      exact ih st1 st' h (gcp_regionStep_inv hA hst1 hI)

theorem gcp_processVmSku_mem {attach : Gcp.AttachMap} (hA : gcpAttachMemInv attach)
    {sku : Gcp.Sku} {out : List Gcp.Record}
    (h : Gcp.processVmSku attach sku = .ok out) {r : Gcp.Record} (hr : r ∈ out) :
    ∃ gc M, gcpRecInv gc M r := by
  rw [Gcp.processVmSku] at h
  simp only [] at h
  split at h
  · have := Except.ok.inj h
    subst this
    exact absurd hr (by simp)
  · split at h
    · have := Except.ok.inj h
      subst this
      exact absurd hr (by simp)
    · rename_i machine_type hmt
      split at h
      · have := Except.ok.inj h
        subst this
        exact absurd hr (by simp)
      · rename_i series hser
        split at h
        · exact absurd h (by simp)
        · rename_i fk hfk
          have := Except.ok.inj h
          subst this
          have hrf := List.eq_of_mem_replicate hr
          subst hrf
          refine ⟨Gcp.determineGpuCount machine_type (pySplit (sku.description.getD ""))
              ((alookup series Gcp.MACHINE_GPU_MAP).getD ⟨"", 0⟩).default_count,
            gcpModelMemOf ((alookup series Gcp.MACHINE_GPU_MAP).getD ⟨"", 0⟩).model, ?_⟩
          exact gcp_regionLoop_inv hA sku.serviceRegions _ fk hfk
            (Or.inl ⟨rfl, rfl, rfl, rfl, rfl⟩)

theorem gcp_collectVmSkus_mem {attach : Gcp.AttachMap} (hA : gcpAttachMemInv attach) :
    ∀ {l : List Gcp.Sku} {out : List Gcp.Record},
      Gcp.collectVmSkus attach l = .ok out → ∀ r ∈ out, ∃ gc M, gcpRecInv gc M r := by
  intro l
  induction l with
  | nil =>
    intro out h r hr
    rw [Gcp.collectVmSkus] at h
    have := Except.ok.inj h
    subst this
    exact absurd hr (by simp)
  | cons sku rest ih =>
    intro out h r hr
    rw [Gcp.collectVmSkus] at h
    split at h
    · exact absurd h (by simp)
    · rename_i l1 hl1
      split at h
      · exact absurd h (by simp)
      · rename_i ls hls
        have := Except.ok.inj h
        subst this
        rcases List.mem_append.mp hr with hr1 | hr2
        · exact gcp_processVmSku_mem hA hl1 hr1
        · exact ih hls r hr2

theorem gcp_filter_mem {skus : List Gcp.Sku} {out : List Gcp.Record}
    (h : Gcp.filter_gpu_instances skus = .ok out) {r : Gcp.Record} (hr : r ∈ out) :
    (r.gpu_count = some 0 → r.price_per_gpu_hour = none)
    ∧ (r.total_gpu_memory_gb = some 0 → r.price_per_gpu_gb_hour = none)
    ∧ (∀ c m, r.gpu_count = some c → r.gpu_memory_gb = some m →
        r.total_gpu_memory_gb = some (c * (m : Int))) := by
  have hinv := gcp_collectVmSkus_mem (gcp_buildAttachments_inv skus) h r hr
  rcases hinv with ⟨gc, M, hI⟩
  rcases hI with ⟨h1, h2, h3, h4, h5⟩ | ⟨h1, h2, h3, h4, h5⟩
  · refine ⟨?_, ?_, ?_⟩
    · intro hc; rw [h1] at hc; exact absurd hc (by simp)
    · intro hc; rw [h3] at hc; exact absurd hc (by simp)
    · intro c m hc; rw [h1] at hc; exact absurd hc (by simp)
  · refine ⟨?_, ?_, ?_⟩
    · intro hc
      rw [h1] at hc
      have hgc0 : gc = 0 := by simpa using hc
      by_contra hne
      exact (h4 hne) hgc0
    · intro hc
      rw [h3] at hc
      have ht0 : gc * (M : Int) = 0 := by simpa using hc
      by_contra hne
      have := h5 hne
      omega
    · intro c m hc hm
      rw [h1] at hc
      rw [h2] at hm
      have hc' : gc = c := by simpa using hc
      have hm' : M = m := by simpa using hm
      rw [h3, hc', hm']

set_option maxHeartbeats 4000000 in
theorem gcp_filter_eval_c7 :
    Gcp.filter_gpu_instances [c7_attach_sku, c7_vm_sku] = .ok [c7_gcp_record] := by
  simp [Gcp.filter_gpu_instances, Gcp.collectVmSkus, Gcp.processVmSku, Gcp.regionLoop,
    Gcp.regionStep, Gcp.buildAttachments, Gcp.attachStep, Gcp.isAttachmentSku, Gcp.findGpuType,
    Gcp.isVmSku, Gcp.machineTypeOf, Gcp.extractVcpuMem, Gcp.findMachineSeries, Gcp.textGpuCount,
    Gcp.determineGpuCount, Gcp.selectPrice, Gcp.entryFirstNZ, Gcp.rateValue, Gcp.amUpsert,
    Gcp.amLookup, Gcp.GPU_MODELS, Gcp.MACHINE_GPU_MAP, Gcp.GPU_MACHINE_TYPE_PREFIXES,
    alookup, pyIndex, pyInt?, pyFloat?, parseUnsignedFloat?, trimChars, natOfDigits, digitChars,
    pySplit, pySplitAux, strLower, strUpper, strContains, strStartsWith, chStartsWith,
    chContainsSub, splitOnCharAux, List.find?, List.enum, List.enumFrom,
    c7_attach_sku, c7_vm_sku, c7_gcp_record]
  norm_num

set_option maxHeartbeats 4000000 in
/-- Evaluation of `filter_gpu_instances` on a priced attachment plus a
VM SKU whose text parses a GPU count of 0: the division
`total_price_per_hour / gpu_count` raises and the run aborts. -/
theorem gcp_filter_eval_zero_count :
    Gcp.filter_gpu_instances [c7_attach_sku, c5_gcp_zero_sku] =
      .error "ZeroDivisionError: float division by zero" := by
  simp [Gcp.filter_gpu_instances, Gcp.collectVmSkus, Gcp.processVmSku, Gcp.regionLoop,
    Gcp.regionStep, Gcp.buildAttachments, Gcp.attachStep, Gcp.isAttachmentSku, Gcp.findGpuType,
    Gcp.isVmSku, Gcp.machineTypeOf, Gcp.extractVcpuMem, Gcp.findMachineSeries, Gcp.textGpuCount,
    Gcp.determineGpuCount, Gcp.selectPrice, Gcp.entryFirstNZ, Gcp.rateValue, Gcp.amUpsert,
    Gcp.amLookup, Gcp.GPU_MODELS, Gcp.MACHINE_GPU_MAP, Gcp.GPU_MACHINE_TYPE_PREFIXES,
    alookup, pyIndex, pyInt?, pyFloat?, parseUnsignedFloat?, trimChars, natOfDigits, digitChars,
    pySplit, pySplitAux, strLower, strUpper, strContains, strStartsWith, chStartsWith,
    chContainsSub, splitOnCharAux, List.find?, List.enum, List.enumFrom,
    c7_attach_sku, c5_gcp_zero_sku]

/-- Records in the Azure output all come from the classifier (the
final sort only permutes). -/
theorem azure_process_mem {vm_data : List Azure.VM} {r : Azure.Record}
    (hr : r ∈ Azure.process_gpu_instances vm_data) :
    ∃ vm ∈ vm_data, Azure.processVM vm = some r := by
  rw [Azure.process_gpu_instances] at hr
  have hmem := (List.perm_insertionSort Azure.keyLe
    (vm_data.filterMap Azure.processVM)).mem_iff.mp hr
  exact List.mem_filterMap.mp hmem

set_option maxHeartbeats 2000000 in
/-- Evaluation of the full AWS pipeline on the `g5g.metal` record
under the USD-1 oracle. -/
theorem aws_pipeline_eval_c5 :
    Aws.pipeline c5_oracle [[c5_instance]] = .ok [c5_record] := by
  simp [Aws.pipeline, Aws.get_instance_types, Aws.collectInstances, Aws.processInstanceType,
    Aws.extractApiGpu, Aws.familyFallback, Aws.countHeuristic, Aws.GPU_INSTANCE_FAMILIES,
    Aws.GPU_MODEL_MAP, Aws.GPU_MEMORY_MAP, Aws.get_instance_pricing, Aws.resolvePrice,
    Aws.calculate_derived_metrics, Aws.deriveOne, Aws.pyFalsyStrOpt,
    c5_instance, c5_oracle, c5_resp, c5_record, alookup, strStartsWith, strContains, strLower,
    strSplitOnChar, splitOnCharAux, chStartsWith, chContainsSub, List.find?, pySplit, pySplitAux]
  norm_num

/-- Evaluation of the full Azure pipeline on the single item
`c1_vm`. -/
theorem azure_process_eval_c1 : Azure.process_gpu_instances [c1_vm] = [c1_record] := by
  rw [Azure.process_gpu_instances]
  have h1 : [c1_vm].filterMap Azure.processVM = [c1_record] := by
    simp [List.filterMap_cons, azure_eval_c1]
  rw [h1]
  simp [List.insertionSort, List.orderedInsert]

/-! ## Claim theorems -/

/-- Claim C1 (code_bug, evaluation at the failing input): running the
Azure classification on a consumption record with SKU name
`Standard_NC24ads_H100_v5` does NOT resolve via the `NCads_H100_v5`
series entry (that key is not a substring of the SKU name): the
generic `NC` entry matches first, yielding model `NVIDIA K80` and
count 1, even though the table's own `NCads_H100_v5` entry maps the
`24` suffix to `NVIDIA H100` with 8 GPUs. -/
theorem C1_azure_nc24ads_code_eval :
    Azure.processVM c1_vm = some c1_record
    ∧ c1_record.gpu_model = "NVIDIA K80"
    ∧ c1_record.gpu_count = 1
    ∧ alookup "NCads_H100_v5" Azure.SERIES_GPU_MAP =
        some { model := "NVIDIA H100", count_suffix := [("24", 8), ("8", 4), ("4", 2), ("2", 1)] }
    ∧ alookup "24" [("24", 8), ("8", 4), ("4", 2), ("2", 1)] = some 8 :=
  ⟨azure_eval_c1, rfl, rfl, by decide, by decide⟩

/-- Claim C2 (counterexample): the GCP fetch stage issues a single
request; given a first response that carries a next-page token, it
returns only that response's SKUs and loses the second page, instead
of the concatenation of all pages demanded by the claim. -/
theorem C2_counterexample_gcp_ignores_token :
    c2_resp1.nextPageToken = some "tok-2"
    ∧ Gcp.get_compute_engine_products (some c2_resp1) = [c2_sku_page1]
    ∧ Gcp.get_compute_engine_products (some c2_resp1) ≠ gcpFetchAllPagesSpec [c2_resp1, c2_resp2] :=
  ⟨rfl, rfl, by decide⟩

/-- Claim C2 (amended): the Azure fetch keeps requesting while each
response carries a non-empty `NextPageLink` containing an extractable
skiptoken, stops at the first response without one, and returns the
concatenation of the fetched pages' items in order (no loss, no
duplication, later pages ignored); the AWS fetch processes the
concatenation of every page the SDK paginator yields, so page
boundaries never lose records; the GCP fetch returns exactly the
single response's SKU list, ignoring any next-page token. -/
theorem C2_pagination_amended :
    (∀ (ps : List Azure.Page) (last : Azure.Page) (more : List Azure.Page),
        (∀ p ∈ ps, Azure.continuesAfter p = true) →
        last.nextPageLink = none →
        Azure.get_azure_vm_pricing (ps ++ last :: more) =
          ((ps ++ [last]).map Azure.Page.items).flatten)
    ∧ (∀ pages : List (List Aws.ApiInstanceType),
        Aws.get_instance_types pages = Aws.get_instance_types [pages.flatten])
    ∧ (∀ d : Gcp.ApiResponse, Gcp.get_compute_engine_products (some d) = d.skus) := by
  refine ⟨?_, ?_, ?_⟩
  · intro ps last more
    induction ps with
    | nil =>
      intro _ hlast
      simp [Azure.get_azure_vm_pricing, Azure.continuesAfter, hlast]
    | cons p ps ih =>
      intro h hlast
      have hp : Azure.continuesAfter p = true := h p (List.mem_cons_self _ _)
      have hrest := ih (fun q hq => h q (List.mem_cons_of_mem _ hq)) hlast
      simp [Azure.get_azure_vm_pricing, hp, hrest]
  · intro pages
    simp [Aws.get_instance_types]
  · intro d
    rfl

/-- Claim C2 (witness): a two-page Azure interaction — the first page
carries a skiptoken link, the second has none — returns both pages'
items concatenated. -/
theorem C2_pagination_amended_witness :
    Azure.get_azure_vm_pricing ([c2_page_a] ++ c2_page_b :: []) =
      (([c2_page_a] ++ [c2_page_b]).map Azure.Page.items).flatten :=
  C2_pagination_amended.1 [c2_page_a] c2_page_b [] (by decide) (by rfl)

/-- Claim C3 (counterexample): `save_results` evaluates
`datetime.now().isoformat()` separately for each of the two writes;
with two distinct dump-time timestamps the two JSON documents differ,
so the files are not byte-identical. -/
theorem C3_counterexample_two_timestamps :
    (save_results Aws.Record "aws" [] none "20250101_000000"
        "2025-01-01T00:00:00.000001" "2025-01-01T00:00:00.000002").1.2
    ≠ (save_results Aws.Record "aws" [] none "20250101_000000"
        "2025-01-01T00:00:00.000001" "2025-01-01T00:00:00.000002").2.2 := by
  decide

/-- Claim C3 (amended): the two files written by `save_results` always
hold the same `instances` array, and their JSON documents coincide
exactly when the two independently sampled `generated_at` timestamps
are equal (only the filenames differ beyond that). -/
theorem C3_save_results_amended (α : Type) (vendor : String) (instances : List α)
    (filename : Option String) (tfile t1 t2 : String) :
    ((save_results α vendor instances filename tfile t1 t2).1.2.instances =
      (save_results α vendor instances filename tfile t1 t2).2.2.instances)
    ∧ ((save_results α vendor instances filename tfile t1 t2).1.2 =
        (save_results α vendor instances filename tfile t1 t2).2.2 ↔ t1 = t2) := by
  refine ⟨rfl, ?_, ?_⟩
  · intro h
    exact congrArg OutputDoc.generated_at h
  · intro h
    simp [save_results, h]

/-- Claim C3 (witness): with equal dump-time timestamps the two
documents coincide. -/
theorem C3_save_results_amended_witness :
    (save_results Aws.Record "aws" [] none "t" "2025-01-01T00:00:00" "2025-01-01T00:00:00").1.2 =
    (save_results Aws.Record "aws" [] none "t" "2025-01-01T00:00:00" "2025-01-01T00:00:00").2.2 :=
  (C3_save_results_amended Aws.Record "aws" [] none "t"
      "2025-01-01T00:00:00" "2025-01-01T00:00:00").2.mpr rfl

/-- Claim C4 (code_bug, evaluation at the failing input): the AWS
classification stage raises on a GPU-family record whose `GpuInfo`
contains an empty `Gpus` list — the `if gpu_count_len == 0:` guard
inverts the intended check and `gpu_info["Gpus"][0]` is evaluated
exactly when the list is empty, so the whole batch aborts instead of
skipping the single record. -/
theorem C4_aws_empty_gpus_crash :
    Aws.get_instance_types [[c4_instance]] = .error "IndexError: list index out of range" := by
  rfl

/-- Claim C9 (counterexample): the description `a3-standard GPU`
identifies the `a3` series and contains no parseable in-text GPU
count, yet classification assigns count 4 (the `'standard'` branch),
not the machine-series default 8. -/
theorem C9_counterexample_standard_description :
    Gcp.findMachineSeries c9_description = some "a3"
    ∧ Gcp.textGpuCount (pySplit c9_description) = none
    ∧ alookup "a3" Gcp.MACHINE_GPU_MAP = some { model := "nvidia-h100-80gb", default_count := 8 }
    ∧ Gcp.determineGpuCount c9_description (pySplit c9_description) 8 = 4 := by
  refine ⟨by decide, by decide, by decide, by decide⟩

/-- Claim C9 (amended): for a GCP SKU description that identifies the
`a3` machine series and contains no explicit GPU count in its text,
classification assigns the machine-series default count 8, provided
the description does not contain `standard` (or contains `highgpu`,
which also forces 8); a description containing `standard` without
`highgpu` is assigned 4 instead. -/
theorem C9_a3_default_count_amended (d : String)
    (_h1 : Gcp.findMachineSeries d = some "a3")
    (h2 : Gcp.textGpuCount (pySplit d) = none)
    (h3 : strContains (strLower d) "standard" = false
          ∨ strContains (strLower d) "highgpu" = true) :
    Gcp.determineGpuCount d (pySplit d)
      (((alookup "a3" Gcp.MACHINE_GPU_MAP).map (fun m => m.default_count)).getD 0) = 8 := by
  unfold Gcp.determineGpuCount
  rw [h2]
  cases hg : strContains (strLower d) "highgpu" with
  | true => simp [hg]
  | false =>
    rcases h3 with h3 | h3
    · simp [hg, h3, alookup, Gcp.MACHINE_GPU_MAP]
    · rw [h3] at hg
      exact absurd hg (by simp)

/-- Claim C9 (witness): an `a3-highgpu` description with no parseable
in-text count is assigned count 8. -/
theorem C9_a3_default_count_amended_witness :
    Gcp.determineGpuCount "a3-highgpu-8g GPU machine" (pySplit "a3-highgpu-8g GPU machine")
      (((alookup "a3" Gcp.MACHINE_GPU_MAP).map (fun m => m.default_count)).getD 0) = 8 :=
  C9_a3_default_count_amended "a3-highgpu-8g GPU machine" (by decide) (by decide)
    (Or.inr (by decide))

/-- Claim C10: for every input list, the Azure pipeline's
`process_gpu_instances` returns a list sorted ascending by the pair
`(gpu_model, price_per_hour)` (Python's `list.sort` with that key
tuple); the spec states no ordering, but the code guarantees this
one. -/
theorem C10_azure_output_sorted (vm_data : List Azure.VM) :
    List.Sorted Azure.keyLe (Azure.process_gpu_instances vm_data) :=
  List.sorted_insertionSort Azure.keyLe (vm_data.filterMap Azure.processVM)

/-- Claim C8 (counterexample): with two `pricingInfo` entries whose
first non-zero rates are 1 and 2 respectively, the code resolves the
price to 2 (the last entry wins), not to the first non-zero rate (1)
encountered across the response. -/
theorem C8_counterexample_last_entry_wins :
    Gcp.selectPrice c8_pricing = some 2
    ∧ firstNZRateSpec c8_pricing = some 1
    ∧ Gcp.selectPrice c8_pricing ≠ firstNZRateSpec c8_pricing := by
  refine ⟨?_, ?_, ?_⟩ <;>
    simp [Gcp.selectPrice, Gcp.entryFirstNZ, Gcp.rateValue, firstNZRateSpec, c8_pricing,
      List.find?]

/-- Claim C8 (amended): within each single `pricingInfo` entry the GCP
price resolution takes the first rate with non-zero units or nanos,
but across several entries the `break` only leaves the inner loop, so
the selected price is the first non-zero rate of the LAST entry that
has one; the Azure pipeline has no tiered-rate handling at all — its
records carry the raw `retailPrice` (default 0) unchanged. -/
theorem C8_first_nonzero_rate_amended :
    (∀ pis : List Gcp.PricingInfo,
        Gcp.selectPrice pis = (pis.filterMap Gcp.entryFirstNZ).getLast?)
    ∧ (∀ (vm : Azure.VM) (r : Azure.Record), Azure.processVM vm = some r →
        r.price_per_hour = vm.retailPrice.getD 0) :=
  ⟨gcp_selectPrice_eq_last, fun _ _ h => (azure_processVM_fields h).1⟩

/-- Claim C8 (witness): the characterization applied to the concrete
two-entry pricing data, and the Azure price clause applied to the
record classified from `c1_vm`. -/
theorem C8_first_nonzero_rate_amended_witness :
    Gcp.selectPrice c8_pricing = (c8_pricing.filterMap Gcp.entryFirstNZ).getLast?
    ∧ c1_record.price_per_hour = c1_vm.retailPrice.getD 0 :=
  ⟨C8_first_nonzero_rate_amended.1 c8_pricing,
   C8_first_nonzero_rate_amended.2 c1_vm c1_record azure_eval_c1⟩

/-- Claim C6: the AWS derived-metrics stage never removes a record —
the output has the same length as the input for every input list, and
any record whose price key is absent or holds `null` reappears
(unchanged) in the output; likewise, whether the Azure pipeline
retains an item never depends on its price. -/
theorem C6_unpriced_records_retained :
    (∀ l : List Aws.Record, (Aws.calculate_derived_metrics l).length = l.length)
    ∧ (∀ (l : List Aws.Record) (r : Aws.Record), r ∈ l →
        (r.price_per_hour_usd = none ∨ r.price_per_hour_usd = some none) →
        r ∈ Aws.calculate_derived_metrics l)
    ∧ (∀ (vm : Azure.VM) (p : Option ℚ),
        (Azure.processVM { vm with retailPrice := p }).isSome = (Azure.processVM vm).isSome) := by
  refine ⟨fun l => List.length_map l Aws.deriveOne, ?_, azure_processVM_isSome_price⟩
  intro l r hr hp
  have : Aws.deriveOne r ∈ Aws.calculate_derived_metrics l :=
    List.mem_map_of_mem Aws.deriveOne hr
  rwa [aws_deriveOne_unpriced r hp] at this

/-- Claim C6 (witness): a record with a `null` price survives the
derived-metrics stage, and changing a price does not change Azure
retention at the concrete item `c1_vm`. -/
theorem C6_unpriced_records_retained_witness :
    (Aws.calculate_derived_metrics [c6_record]).length = [c6_record].length
    ∧ c6_record ∈ Aws.calculate_derived_metrics [c6_record]
    ∧ (Azure.processVM { c1_vm with retailPrice := some 5 }).isSome =
        (Azure.processVM c1_vm).isSome :=
  ⟨C6_unpriced_records_retained.1 [c6_record],
   C6_unpriced_records_retained.2.1 [c6_record] c6_record (List.mem_singleton_self _) (Or.inr rfl),
   C6_unpriced_records_retained.2.2 c1_vm (some 5)⟩

/-- Claim C5 (counterexample): the AWS pipeline emits, for a priced
`g5g.metal` record with GPU count 0, a `price_per_gpu_hour` key that
is PRESENT holding `null` (`instance["price_per_gpu_hour"] = None`),
not an absent field as claimed. -/
theorem C5_counterexample_null_not_absent :
    Aws.pipeline c5_oracle [[c5_instance]] = .ok [c5_record]
    ∧ c5_record.gpu_count = 0
    ∧ c5_record.price_per_gpu_hour = some none
    ∧ c5_record.price_per_gpu_hour ≠ none :=
  ⟨aws_pipeline_eval_c5, rfl, rfl, by simp [c5_record]⟩

/-- Claim C5 (amended): in every record the pipelines emit, a derived
ratio field never holds a number computed with a zero divisor, but
presence differs by vendor: when `gpu_count` is 0 the AWS pipeline
emits `price_per_gpu_hour` as present-holding-`null` (and likewise
`price_per_gpu_gb_hour` when `total_gpu_memory_gb` is 0), while the
Azure and GCP pipelines omit the key entirely.  Division by zero is
nonetheless reachable in the GCP pipeline itself: a VM SKU whose
description text parses a GPU count of 0, joined in a shared region
to a priced GPU attachment while the VM price is truthy, makes
`total_price_per_hour / gpu_count` raise `ZeroDivisionError` and
abort the whole run, emitting nothing. -/
theorem C5_ratio_divisor_amended :
    (∀ (oracle : String → Option Aws.PriceResponse) (pages : List (List Aws.ApiInstanceType))
        (out : List Aws.Record), Aws.pipeline oracle pages = .ok out → ∀ r ∈ out,
        (r.gpu_count = 0 → r.price_per_gpu_hour = none ∨ r.price_per_gpu_hour = some none)
        ∧ (r.total_gpu_memory_gb = 0 →
            r.price_per_gpu_gb_hour = none ∨ r.price_per_gpu_gb_hour = some none))
    ∧ (∀ (vm_data : List Azure.VM) (r : Azure.Record),
        r ∈ Azure.process_gpu_instances vm_data →
        (r.gpu_count = 0 → r.price_per_gpu_hour = none)
        ∧ (r.total_gpu_memory_gb = 0 → r.price_per_gpu_gb_hour = none))
    ∧ (∀ (skus : List Gcp.Sku) (out : List Gcp.Record),
        Gcp.filter_gpu_instances skus = .ok out → ∀ r ∈ out,
        (r.gpu_count = some 0 → r.price_per_gpu_hour = none)
        ∧ (r.total_gpu_memory_gb = some 0 → r.price_per_gpu_gb_hour = none))
    ∧ Gcp.filter_gpu_instances [c7_attach_sku, c5_gcp_zero_sku] =
        .error "ZeroDivisionError: float division by zero" := by
  refine ⟨?_, ?_, ?_, gcp_filter_eval_zero_count⟩
  · intro oracle pages out h r hr
    have hp := aws_pipeline_mem h hr
    exact ⟨hp.1, hp.2.1⟩
  · intro vm_data r hr
    obtain ⟨vm, _, hvm⟩ := azure_process_mem hr
    have hf := azure_processVM_fields hvm
    exact ⟨hf.2.2.1, hf.2.2.2⟩
  · intro skus out h r hr
    have hg := gcp_filter_mem h hr
    exact ⟨hg.1, hg.2.1⟩

/-- Claim C5 (witness): the amended statement applied to concrete
runs — the zero-count AWS record gets a null ratio field, the Azure
and GCP emitted-record clauses instantiated, and the GCP run that
aborts with `ZeroDivisionError`. -/
theorem C5_ratio_divisor_amended_witness :
    (c5_record.price_per_gpu_hour = none ∨ c5_record.price_per_gpu_hour = some none)
    ∧ (c1_record.gpu_count = 0 → c1_record.price_per_gpu_hour = none)
    ∧ (c7_gcp_record.gpu_count = some 0 → c7_gcp_record.price_per_gpu_hour = none)
    ∧ Gcp.filter_gpu_instances [c7_attach_sku, c5_gcp_zero_sku] =
        .error "ZeroDivisionError: float division by zero" :=
  ⟨(C5_ratio_divisor_amended.1 c5_oracle [[c5_instance]] [c5_record] aws_pipeline_eval_c5
      c5_record (List.mem_singleton_self _)).1 rfl,
   (C5_ratio_divisor_amended.2.1 [c1_vm] c1_record
      (by rw [azure_process_eval_c1]; exact List.mem_singleton_self _)).1,
   (C5_ratio_divisor_amended.2.2.1 [c7_attach_sku, c7_vm_sku] [c7_gcp_record] gcp_filter_eval_c7
      c7_gcp_record (List.mem_singleton_self _)).1,
   C5_ratio_divisor_amended.2.2.2⟩

/-- Claim C7: in every record emitted by any of the three pipelines,
`total_gpu_memory_gb` equals `gpu_count * gpu_memory_gb` (for GCP the
three fields are created together per matching region, so the
identity is stated for records where they are present). -/
theorem C7_total_gpu_memory_invariant :
    (∀ (oracle : String → Option Aws.PriceResponse) (pages : List (List Aws.ApiInstanceType))
        (out : List Aws.Record), Aws.pipeline oracle pages = .ok out → ∀ r ∈ out,
        r.total_gpu_memory_gb = (r.gpu_count : ℚ) * r.gpu_memory_gb)
    ∧ (∀ (vm_data : List Azure.VM) (r : Azure.Record),
        r ∈ Azure.process_gpu_instances vm_data →
        r.total_gpu_memory_gb = r.gpu_count * r.gpu_memory_gb)
    ∧ (∀ (skus : List Gcp.Sku) (out : List Gcp.Record),
        Gcp.filter_gpu_instances skus = .ok out → ∀ r ∈ out,
        ∀ c m, r.gpu_count = some c → r.gpu_memory_gb = some m →
          r.total_gpu_memory_gb = some (c * (m : Int))) := by
  refine ⟨?_, ?_, ?_⟩
  · intro oracle pages out h r hr
    exact (aws_pipeline_mem h hr).2.2
  · intro vm_data r hr
    obtain ⟨vm, _, hvm⟩ := azure_process_mem hr
    exact (azure_processVM_fields hvm).2.1
  · intro skus out h r hr
    exact (gcp_filter_mem h hr).2.2

/-- Claim C7 (witness): the invariant applied to the three concrete
emitted records. -/
theorem C7_total_gpu_memory_invariant_witness :
    c5_record.total_gpu_memory_gb = (c5_record.gpu_count : ℚ) * c5_record.gpu_memory_gb
    ∧ c1_record.total_gpu_memory_gb = c1_record.gpu_count * c1_record.gpu_memory_gb
    ∧ c7_gcp_record.total_gpu_memory_gb = some (8 * (80 : Int)) :=
  ⟨C7_total_gpu_memory_invariant.1 c5_oracle [[c5_instance]] [c5_record] aws_pipeline_eval_c5
      c5_record (List.mem_singleton_self _),
   C7_total_gpu_memory_invariant.2.1 [c1_vm] c1_record
      (by rw [azure_process_eval_c1]; exact List.mem_singleton_self _),
   C7_total_gpu_memory_invariant.2.2 [c7_attach_sku, c7_vm_sku] [c7_gcp_record] gcp_filter_eval_c7
      c7_gcp_record (List.mem_singleton_self _) 8 80 rfl rfl⟩
